import Mathlib

/-!
Shallow embedding of the artist-management screen of the Festibee admin
dashboard: the `ArtistForm` component (src/unnamed/part_000) and the
`ArtistsPage` component (second part of src/app/layout.tsx).

React state updates are modelled as pure state-transition functions; results
of remote API calls (`checkArtistDuplicate`, `fetchArtists`, `createArtist`,
`updateArtist`, `deleteArtist`) are passed in as `Except` values, since the
API client is an external collaborator.  Side effects visible to the claims
(which callbacks were invoked, which API calls were issued, alerts) are
recorded in explicit result structures.
-/

/-- `ArtistAlias` from the API types: id, name. -/
structure ArtistAlias where
  id : Int
  name : String
deriving Repr, DecidableEq

/-- `Artist` from the API types: id, name, description, list of aliases. -/
structure Artist where
  id : Int
  name : String
  description : String
  aliases : List ArtistAlias
deriving Repr, DecidableEq

/-- The controlled form data of `ArtistForm` (the `formData` state hook). -/
structure FormData where
  name : String
  description : String
  aliases : List ArtistAlias
deriving Repr, DecidableEq

/-- The complete local state of `ArtistForm`: the six `useState` hooks. -/
structure FormState where
  formData : FormData
  newAlias : String
  isSubmitting : Bool
  nameError : Option String
  isCheckingDuplicate : Bool
  aliasError : Option String
  isCheckingAliasDuplicate : Bool
deriving Repr, DecidableEq

/-- Result type of the remote `checkArtistDuplicate` call: the duplicate can
be another artist's name or another artist's alias. -/
inductive DupType where
  | name
  | alias
deriving Repr, DecidableEq

/-- Payload returned by `checkArtistDuplicate`. -/
structure DupResult where
  isDuplicate : Bool
  duplicateType : DupType
  duplicateName : String
deriving Repr, DecidableEq

/-- JavaScript `String.prototype.trim()`: strip leading and trailing
whitespace characters. -/
def jsTrim (s : String) : String :=
  String.mk (((s.data.dropWhile Char.isWhitespace).reverse.dropWhile
      Char.isWhitespace).reverse)

/-- The Korean error message built from a duplicate result (shared by the
name check and the alias check in `ArtistForm`). -/
def dupErrorMessage (r : DupResult) : String :=
  match r.duplicateType with
  | DupType.name =>
      "이미 등록된 아티스트 이름입니다: \"" ++ r.duplicateName ++ "\""
  | DupType.alias =>
      "이미 다른 아티스트의 별명으로 등록되어 있습니다: \"" ++ r.duplicateName ++ "\""

/-- Outcome of `ArtistForm.handleSubmit`: the state after the handler, and
which of the observable effects happened. -/
structure SubmitResult where
  state : FormState
  calledOnSubmit : Bool
  submittedData : Option FormData
  calledOnCancel : Bool
  alerted : Bool
deriving Repr, DecidableEq

/-- `ArtistForm.handleSubmit` (src/unnamed/part_000 lines 89-107): if
`nameError` is set, alert and return without calling `onSubmit`.  Otherwise
set `isSubmitting`, await `onSubmit(formData)`; on success call `onCancel`,
on rejection only log; finally reset `isSubmitting`. -/
def handleSubmit (s : FormState) (onSubmitResult : Except Unit Unit) :
    SubmitResult :=
  if s.nameError.isSome then
    { state := s, calledOnSubmit := false, submittedData := none,
      calledOnCancel := false, alerted := true }
  else
    match onSubmitResult with
    | Except.ok _ =>
        { state := { s with isSubmitting := false }, calledOnSubmit := true,
          submittedData := some s.formData, calledOnCancel := true,
          alerted := false }
    | Except.error _ =>
        { state := { s with isSubmitting := false }, calledOnSubmit := true,
          submittedData := some s.formData, calledOnCancel := false,
          alerted := false }

/-- The `disabled` expression of the submit button (src/unnamed/part_000
line 272): `isSubmitting || !formData.name || !formData.description ||
!!nameError || isCheckingDuplicate`. -/
def submitDisabled (s : FormState) : Bool :=
  s.isSubmitting || s.formData.name == "" || s.formData.description == "" ||
    s.nameError.isSome || s.isCheckingDuplicate

/-- Outcome of `ArtistForm.handleAddAlias`: the state after the handler and
whether the remote `checkArtistDuplicate` call was made. -/
structure AddAliasResult where
  state : FormState
  calledRemoteCheck : Bool
deriving Repr, DecidableEq

/-- `ArtistForm.handleAddAlias` (src/unnamed/part_000 lines 109-147):
return if the trimmed input is empty; reject locally if the trimmed input
equals the name of an alias already in the list; otherwise consult the
remote `checkArtistDuplicate` and on a non-duplicate result append a new
alias with id `Date.now()` and the trimmed name, clearing the input.
`now` stands for the value of `Date.now()`; `remote` for the outcome of the
remote call. -/
def handleAddAlias (s : FormState) (now : Int)
    (remote : Except Unit DupResult) : AddAliasResult :=
  if jsTrim s.newAlias == "" then
    { state := s, calledRemoteCheck := false }
  else if s.formData.aliases.any (fun a => a.name == jsTrim s.newAlias) then
    { state := { s with aliasError := some "이미 추가된 별명입니다." },
      calledRemoteCheck := false }
  else
    match remote with
    | Except.error _ =>
        { state := { s with
            aliasError := some "중복 확인 중 오류가 발생했습니다.",
            isCheckingAliasDuplicate := false },
          calledRemoteCheck := true }
    | Except.ok r =>
        if r.isDuplicate then
          { state := { s with
              aliasError := some (dupErrorMessage r),
              isCheckingAliasDuplicate := false },
            calledRemoteCheck := true }
        else
          { state := { s with
              formData := { s.formData with
                aliases := s.formData.aliases ++
                  [{ id := now, name := jsTrim s.newAlias }] },
              newAlias := "",
              aliasError := none,
              isCheckingAliasDuplicate := false },
            calledRemoteCheck := true }

/-- `ArtistForm.handleRemoveAlias` (src/unnamed/part_000 lines 149-154):
keep only the aliases whose id differs from `aliasId`. -/
def handleRemoveAlias (s : FormState) (aliasId : Int) : FormState :=
  { s with formData := { s.formData with
      aliases := s.formData.aliases.filter (fun a => a.id != aliasId) } }

/-- The `initialData` effect of `ArtistForm` (src/unnamed/part_000 lines
29-46): bind the form to the given artist, or reset it for create mode; in
both cases clear the pending alias input and both error fields. -/
def initialDataEffect (s : FormState) (initialData : Option Artist) :
    FormState :=
  match initialData with
  | some a =>
      { s with
        formData := { name := a.name, description := a.description,
                      aliases := a.aliases },
        newAlias := "", nameError := none, aliasError := none }
  | none =>
      { s with
        formData := { name := "", description := "", aliases := [] },
        newAlias := "", nameError := none, aliasError := none }

/-- The initial `ArtistForm` state in create mode (no `initialData`):
the initial values of the six `useState` hooks. -/
def initialFormState : FormState :=
  { formData := { name := "", description := "", aliases := [] },
    newAlias := "", isSubmitting := false, nameError := none,
    isCheckingDuplicate := false, aliasError := none,
    isCheckingAliasDuplicate := false }

/-- The local state of `ArtistsPage`: the six `useState` hooks of the page
component in src/app/layout.tsx. -/
structure PageState where
  artists : List Artist
  isLoading : Bool
  error : Option String
  isFormOpen : Bool
  editingArtist : Option Artist
  selectedArtist : Option Artist
deriving Repr, DecidableEq

/-- The initial `ArtistsPage` state: empty list, loading, no error, form
closed, nothing being edited or viewed. -/
def initialPageState : PageState :=
  { artists := [], isLoading := true, error := none, isFormOpen := false,
    editingArtist := none, selectedArtist := none }

/-- The API-client calls `ArtistsPage` can issue, recorded as a trace. -/
inductive ApiCall where
  | fetchArtists
  | createArtist (d : FormData)
  | updateArtist (id : Int) (d : FormData)
  | deleteArtist (id : Int)
deriving Repr, DecidableEq

/-- The mount effect of `ArtistsPage` (`useEffect` with empty dependency
array): it runs once and its body issues a single `fetchArtists` call via
`loadArtists`. -/
def mountCalls : List ApiCall := [ApiCall.fetchArtists]

/-- `ArtistsPage.loadArtists` (src/app/layout.tsx): on success store the
fetched list and clear the error; on rejection set the error message; in
both cases clear the loading flag. -/
def loadArtists (s : PageState) (fetchResult : Except Unit (List Artist)) :
    PageState :=
  match fetchResult with
  | Except.ok data =>
      { s with artists := data, error := none, isLoading := false }
  | Except.error _ =>
      { s with error := some "Failed to load artists", isLoading := false }

/-- One rendered table row of the artist list. -/
structure TableRowView where
  id : Int
  name : String
  description : String
  aliasNames : List String
deriving Repr, DecidableEq

/-- The table body of `ArtistsPage`: one row per artist in state, in order,
showing id, name, description and the alias names. -/
def renderRows (artists : List Artist) : List TableRowView :=
  artists.map (fun a =>
    { id := a.id, name := a.name, description := a.description,
      aliasNames := a.aliases.map (fun al => al.name) })

/-- Outcome of a page action: the state afterwards and the trace of API
calls issued, in order. -/
structure PageActionResult where
  state : PageState
  calls : List ApiCall
deriving Repr, DecidableEq

/-- `ArtistsPage.handleCloseForm`: close the form and clear the artist
being edited. -/
def handleCloseForm (s : PageState) : PageState :=
  { s with isFormOpen := false, editingArtist := none }

/-- `ArtistsPage.handleSubmit` (src/app/layout.tsx): call `updateArtist`
with the editing artist's id when editing, else `createArtist`; if that
call succeeds, refetch the list via `loadArtists` and close the form; if it
rejects, only log.  `apiResult` is the outcome of the create/update call,
`fetchResult` the outcome of the refetch. -/
def pageHandleSubmit (s : PageState) (d : FormData)
    (apiResult : Except Unit Unit)
    (fetchResult : Except Unit (List Artist)) : PageActionResult :=
  let call := match s.editingArtist with
    | some a => ApiCall.updateArtist a.id d
    | none => ApiCall.createArtist d
  match apiResult with
  | Except.error _ => { state := s, calls := [call] }
  | Except.ok _ =>
      { state := handleCloseForm (loadArtists s fetchResult),
        calls := [call, ApiCall.fetchArtists] }

/-- `ArtistsPage.handleDelete` (src/app/layout.tsx): ask for confirmation;
if confirmed, call `deleteArtist(id)` and, when it succeeds, refetch the
list; a rejection is only logged.  If the user declines, do nothing. -/
def handleDelete (s : PageState) (id : Int) (confirmed : Bool)
    (deleteResult : Except Unit Unit)
    (fetchResult : Except Unit (List Artist)) : PageActionResult :=
  if confirmed then
    match deleteResult with
    | Except.ok _ =>
        { state := loadArtists s fetchResult,
          calls := [ApiCall.deleteArtist id, ApiCall.fetchArtists] }
    | Except.error _ => { state := s, calls := [ApiCall.deleteArtist id] }
  else
    { state := s, calls := [] }

/-- User interactions on an open `ArtistForm` that touch the alias list:
typing into the alias input (which also clears a pending alias error, per
the input's `onChange`), pressing the add button, and removing an alias. -/
inductive FormOp where
  | setNewAlias (v : String)
  | addAlias (now : Int) (remote : Except Unit DupResult)
  | removeAlias (aliasId : Int)

/-- Apply one interaction to the form state. -/
def applyFormOp (s : FormState) (op : FormOp) : FormState :=
  match op with
  | FormOp.setNewAlias v => { s with newAlias := v, aliasError := none }
  | FormOp.addAlias now remote => (handleAddAlias s now remote).state
  | FormOp.removeAlias i => handleRemoveAlias s i

/-- Run a sequence of interactions from a starting state. -/
def runFormOps (s : FormState) (ops : List FormOp) : FormState :=
  ops.foldl applyFormOp s

/-- Dropping leading whitespace, then trailing whitespace, leaves a list
whose head is not whitespace, so a second leading pass is the identity. -/
theorem dropWhile_rdropWhile_dropWhile (p : Char → Bool) (l : List Char) :
    List.dropWhile p (List.rdropWhile p (List.dropWhile p l)) =
      List.rdropWhile p (List.dropWhile p l) := by
  obtain ⟨u, hu⟩ := List.rdropWhile_prefix p (List.dropWhile p l)
  cases ht : List.rdropWhile p (List.dropWhile p l) with
  | nil => simp
  | cons a t =>
    have hm : List.dropWhile p l = a :: (t ++ u) := by
      rw [← hu, ht]; simp
    have hne : List.dropWhile p l ≠ [] := by rw [hm]; simp
    have hpa : p ((List.dropWhile p l).head hne) = false :=
      List.head_dropWhile_not p l hne
    have hpa' : p a = false := by
      have : (List.dropWhile p l).head hne = a := by
        simp [hm]
      rwa [this] at hpa
    simp [List.dropWhile_cons, hpa']

/-- `jsTrim` in terms of `List.dropWhile` and `List.rdropWhile`. -/
theorem jsTrim_def (s : String) :
    jsTrim s = String.mk (List.rdropWhile Char.isWhitespace
      (List.dropWhile Char.isWhitespace s.data)) := rfl

/-- JavaScript `trim` is idempotent. -/
theorem jsTrim_jsTrim (s : String) : jsTrim (jsTrim s) = jsTrim s := by
  rw [jsTrim_def s, jsTrim_def, dropWhile_rdropWhile_dropWhile,
    List.rdropWhile_idempotent]

/-- The alias list after `handleAddAlias` is either unchanged or has the
trimmed, non-empty input appended at the end. -/
theorem handleAddAlias_aliases (s : FormState) (now : Int)
    (remote : Except Unit DupResult) :
    (handleAddAlias s now remote).state.formData.aliases =
        s.formData.aliases ∨
      ((handleAddAlias s now remote).state.formData.aliases =
          s.formData.aliases ++ [{ id := now, name := jsTrim s.newAlias }] ∧
        jsTrim s.newAlias ≠ "") := by
  by_cases h1 : (jsTrim s.newAlias == "") = true
  · left; simp [handleAddAlias, h1]
  · by_cases h2 :
        (s.formData.aliases.any (fun a => a.name == jsTrim s.newAlias)) = true
    · left; simp [handleAddAlias, h1, h2]
    · rcases remote with e | r
      · left; simp [handleAddAlias, h1, h2]
      · by_cases h3 : r.isDuplicate = true
        · left; simp [handleAddAlias, h1, h2, h3]
        · right
          refine ⟨by simp [handleAddAlias, h1, h2, h3], ?_⟩
          simpa using h1

/-- Each form interaction preserves the alias-name well-formedness
invariant: every alias name is non-empty and trim-stable. -/
theorem applyFormOp_preserves_alias_names (s : FormState) (op : FormOp)
    (hs : ∀ a ∈ s.formData.aliases, a.name ≠ "" ∧ jsTrim a.name = a.name) :
    ∀ a ∈ (applyFormOp s op).formData.aliases,
      a.name ≠ "" ∧ jsTrim a.name = a.name := by
  cases op with
  | setNewAlias v => simpa [applyFormOp] using hs
  | removeAlias i =>
    intro a ha
    have ha' : a ∈ s.formData.aliases := by
      have := ha
      simp only [applyFormOp, handleRemoveAlias] at this
      exact List.mem_of_mem_filter this
    exact hs a ha'
  | addAlias now remote =>
    intro a ha
    simp only [applyFormOp] at ha
    rcases handleAddAlias_aliases s now remote with h | ⟨h, hne⟩
    · rw [h] at ha
      exact hs a ha
    · rw [h] at ha
      rcases List.mem_append.mp ha with h1 | h2
      · exact hs a h1
      · have ha2 : a = { id := now, name := jsTrim s.newAlias } := by
          simpa using h2
        subst ha2
        exact ⟨hne, jsTrim_jsTrim s.newAlias⟩

/-- A form state whose duplicate-name check has set an error. -/
def formStateWithNameError : FormState :=
  { initialFormState with nameError := some "dup" }

/-- A form state holding alias "A" with the same name pending in the alias
input, used to exercise the local duplicate check of `handleAddAlias`. -/
def c2State : FormState := { initialFormState with
  formData := { name := "N", description := "D",
                aliases := [{ id := 1, name := "A" }] },
  newAlias := "A" }

/-- A remote duplicate-check result reporting no duplicate. -/
def noDup : DupResult :=
  { isDuplicate := false, duplicateType := DupType.name, duplicateName := "" }

/-- C1: whenever `nameError` is non-null, `handleSubmit` alerts and returns
without calling `onSubmit`, and the submit button is disabled whenever
`nameError` is set or a duplicate check is in flight. -/
theorem duplicate_error_gates_submission :
    (∀ (s : FormState) (r : Except Unit Unit), s.nameError.isSome = true →
      (handleSubmit s r).calledOnSubmit = false ∧
        (handleSubmit s r).submittedData = none ∧
        (handleSubmit s r).alerted = true) ∧
    (∀ s : FormState, s.nameError.isSome = true ∨ s.isCheckingDuplicate = true →
      submitDisabled s = true) := by
  constructor
  · intro s r h
    simp [handleSubmit, h]
  · intro s h
    rcases h with h | h <;> simp [submitDisabled, h]

/-- C1 witness: a concrete state with a name error neither submits nor
escapes the disabled submit button. -/
theorem duplicate_error_gates_submission_witness :
    ((handleSubmit formStateWithNameError (Except.ok ())).calledOnSubmit =
        false ∧
      (handleSubmit formStateWithNameError (Except.ok ())).submittedData =
        none ∧
      (handleSubmit formStateWithNameError (Except.ok ())).alerted = true) ∧
    submitDisabled formStateWithNameError = true :=
  ⟨duplicate_error_gates_submission.1 formStateWithNameError (Except.ok ())
      (by decide),
    duplicate_error_gates_submission.2 formStateWithNameError
      (Or.inl (by decide))⟩

/-- C2 counterexample: with alias "A" already in the form and "A" pending,
the remote check reports no duplicate, yet the alias is not added and the
remote `checkArtistDuplicate` is not even called — a local uniqueness check
against the aliases already present decides first, refuting that addition
is decided solely by the remote call. -/
theorem add_alias_not_remote_only :
    (handleAddAlias c2State 5 (Except.ok noDup)).calledRemoteCheck = false ∧
    (handleAddAlias c2State 5 (Except.ok noDup)).state.formData.aliases =
      [{ id := 1, name := "A" }] ∧
    (handleAddAlias c2State 5 (Except.ok noDup)).state.aliasError =
      some "이미 추가된 별명입니다." := by decide

/-- C2 amended: `handleAddAlias` first runs a local uniqueness check — a
non-empty trimmed input equal to an existing alias name is rejected with an
error and without calling the remote check — and only for inputs passing
the local check is addition decided by the remote `checkArtistDuplicate`
result: added exactly when the remote call returns a non-duplicate. -/
theorem add_alias_local_then_remote :
    (∀ (s : FormState) (now : Int) (remote : Except Unit DupResult),
      jsTrim s.newAlias ≠ "" →
      s.formData.aliases.any (fun a => a.name == jsTrim s.newAlias) = true →
        (handleAddAlias s now remote).calledRemoteCheck = false ∧
        (handleAddAlias s now remote).state.formData.aliases =
          s.formData.aliases ∧
        (handleAddAlias s now remote).state.aliasError =
          some "이미 추가된 별명입니다.") ∧
    (∀ (s : FormState) (now : Int) (remote : Except Unit DupResult),
      jsTrim s.newAlias ≠ "" →
      s.formData.aliases.any (fun a => a.name == jsTrim s.newAlias) = false →
        (handleAddAlias s now remote).calledRemoteCheck = true ∧
        ((handleAddAlias s now remote).state.formData.aliases =
            s.formData.aliases ++ [{ id := now, name := jsTrim s.newAlias }] ↔
          ∃ r, remote = Except.ok r ∧ r.isDuplicate = false)) := by
  constructor
  · intro s now remote h1 h2
    have h1' : (jsTrim s.newAlias == "") = false := by
      simpa using h1
    simp [handleAddAlias, h1', h2]
  · intro s now remote h1 h2
    have h1' : (jsTrim s.newAlias == "") = false := by
      simpa using h1
    rcases remote with e | r
    · refine ⟨by simp [handleAddAlias, h1', h2], ?_⟩
      constructor
      · intro h
        have := congrArg List.length h
        simp [handleAddAlias, h1', h2] at this
      · rintro ⟨r, hr, -⟩
        exact absurd hr (by simp)
    · by_cases h3 : r.isDuplicate = true
      · refine ⟨by simp [handleAddAlias, h1', h2, h3], ?_⟩
        constructor
        · intro h
          have := congrArg List.length h
          simp [handleAddAlias, h1', h2, h3] at this
        · rintro ⟨r', hr', hdup⟩
          have : r' = r := by
            have := hr'
            simp [Except.ok.injEq] at this
            exact this.symm
          rw [this] at hdup
          rw [h3] at hdup
          exact absurd hdup (by simp)
      · refine ⟨by simp [handleAddAlias, h1', h2, h3], ?_⟩
        constructor
        · intro _
          exact ⟨r, rfl, by simpa using h3⟩
        · intro _
          simp [handleAddAlias, h1', h2, h3]

/-- C2 amended witness: with alias "A" present, pending input "A" is
rejected locally without a remote call, and pending input "B" is decided by
the remote call and appended on a non-duplicate result. -/
theorem add_alias_local_then_remote_witness :
    ((handleAddAlias c2State 5 (Except.ok noDup)).calledRemoteCheck = false ∧
      (handleAddAlias c2State 5 (Except.ok noDup)).state.formData.aliases =
        c2State.formData.aliases ∧
      (handleAddAlias c2State 5 (Except.ok noDup)).state.aliasError =
        some "이미 추가된 별명입니다.") ∧
    ((handleAddAlias { c2State with newAlias := "B" } 5
        (Except.ok noDup)).calledRemoteCheck = true ∧
      ((handleAddAlias { c2State with newAlias := "B" } 5
          (Except.ok noDup)).state.formData.aliases =
          { c2State with newAlias := "B" }.formData.aliases ++
            [{ id := 5, name := jsTrim { c2State with newAlias := "B" }.newAlias }] ↔
        ∃ r, (Except.ok noDup : Except Unit DupResult) = Except.ok r ∧
          r.isDuplicate = false)) :=
  ⟨add_alias_local_then_remote.1 c2State 5 (Except.ok noDup) (by decide)
      (by decide),
    add_alias_local_then_remote.2 { c2State with newAlias := "B" } 5
      (Except.ok noDup) (by decide) (by decide)⟩

/-- C6: `handleAddAlias` appends the new alias at the end of the existing
list, and `handleRemoveAlias` keeps the remaining aliases in their relative
order (the resulting list is a sublist of the original). -/
theorem alias_list_order :
    (∀ (s : FormState) (now : Int) (r : DupResult),
      jsTrim s.newAlias ≠ "" →
      s.formData.aliases.any (fun a => a.name == jsTrim s.newAlias) = false →
      r.isDuplicate = false →
        (handleAddAlias s now (Except.ok r)).state.formData.aliases =
          s.formData.aliases ++ [{ id := now, name := jsTrim s.newAlias }]) ∧
    (∀ (s : FormState) (i : Int),
      List.Sublist (handleRemoveAlias s i).formData.aliases
        s.formData.aliases) := by
  constructor
  · intro s now r h1 h2 h3
    have h1' : (jsTrim s.newAlias == "") = false := by simpa using h1
    simp [handleAddAlias, h1', h2, h3]
  · intro s i
    simp only [handleRemoveAlias]
    exact List.filter_sublist (l := s.formData.aliases)

/-- C6 witness: from a concrete state, adding pending alias "B" appends it
at the end, and removing alias id 1 yields a sublist of the original. -/
theorem alias_list_order_witness :
    (handleAddAlias { c2State with newAlias := "B" } 5
        (Except.ok noDup)).state.formData.aliases =
      { c2State with newAlias := "B" }.formData.aliases ++
        [{ id := 5, name := jsTrim { c2State with newAlias := "B" }.newAlias }] ∧
    List.Sublist (handleRemoveAlias c2State 1).formData.aliases
      c2State.formData.aliases :=
  ⟨alias_list_order.1 { c2State with newAlias := "B" } 5 noDup (by decide)
      (by decide) (by decide),
    alias_list_order.2 c2State 1⟩

/-- C7: the `initialData` effect binds the form to the given artist's name,
description and aliases in edit mode, and resets all three fields in create
mode; in both cases the pending alias input and both error fields are
cleared. -/
theorem form_bound_to_initial_data :
    (∀ (s : FormState) (a : Artist),
      (initialDataEffect s (some a)).formData.name = a.name ∧
      (initialDataEffect s (some a)).formData.description = a.description ∧
      (initialDataEffect s (some a)).formData.aliases = a.aliases ∧
      (initialDataEffect s (some a)).newAlias = "" ∧
      (initialDataEffect s (some a)).nameError = none ∧
      (initialDataEffect s (some a)).aliasError = none) ∧
    (∀ s : FormState,
      (initialDataEffect s none).formData.name = "" ∧
      (initialDataEffect s none).formData.description = "" ∧
      (initialDataEffect s none).formData.aliases = [] ∧
      (initialDataEffect s none).newAlias = "" ∧
      (initialDataEffect s none).nameError = none ∧
      (initialDataEffect s none).aliasError = none) := by
  constructor
  · intro s a
    simp [initialDataEffect]
  · intro s
    simp [initialDataEffect]

/-- C8: when `onSubmit` rejects (and the handler actually reached the
submit call, i.e. there was no name error), `onCancel` is not called, the
form data is unchanged and `isSubmitting` is reset to false. -/
theorem submit_failure_nondestructive (s : FormState)
    (h : s.nameError = none) :
    (handleSubmit s (Except.error ())).calledOnSubmit = true ∧
    (handleSubmit s (Except.error ())).calledOnCancel = false ∧
    (handleSubmit s (Except.error ())).state.formData = s.formData ∧
    (handleSubmit s (Except.error ())).state.isSubmitting = false := by
  simp [handleSubmit, h]

/-- C8 witness: submission failure from the pristine create-mode state
leaves the form open with its data intact. -/
theorem submit_failure_nondestructive_witness :
    (handleSubmit initialFormState (Except.error ())).calledOnSubmit = true ∧
    (handleSubmit initialFormState (Except.error ())).calledOnCancel =
      false ∧
    (handleSubmit initialFormState (Except.error ())).state.formData =
      initialFormState.formData ∧
    (handleSubmit initialFormState (Except.error ())).state.isSubmitting =
      false :=
  submit_failure_nondestructive initialFormState (by decide)

/-- C9: starting from the create-mode state, after any sequence of alias
interactions every alias in the form has a non-empty, trim-stable name. -/
theorem alias_names_wellformed (ops : List FormOp) :
    ∀ a ∈ (runFormOps initialFormState ops).formData.aliases,
      a.name ≠ "" ∧ jsTrim a.name = a.name := by
  suffices h : ∀ (ops : List FormOp) (s : FormState),
      (∀ a ∈ s.formData.aliases, a.name ≠ "" ∧ jsTrim a.name = a.name) →
      ∀ a ∈ (runFormOps s ops).formData.aliases,
        a.name ≠ "" ∧ jsTrim a.name = a.name by
    exact h ops initialFormState (by simp [initialFormState])
  intro ops
  induction ops with
  | nil =>
    intro s hs
    simpa [runFormOps] using hs
  | cons op rest ih =>
    intro s hs
    have hstep := applyFormOp_preserves_alias_names s op hs
    simpa [runFormOps] using ih (applyFormOp s op) hstep

/-- C9 witness: typing " x " and adding it (remote says no duplicate)
stores the trimmed, non-empty name "x". -/
theorem alias_names_wellformed_witness :
    ({ id := 1, name := "x" } : ArtistAlias).name ≠ "" ∧
      jsTrim ({ id := 1, name := "x" } : ArtistAlias).name =
        ({ id := 1, name := "x" } : ArtistAlias).name :=
  alias_names_wellformed
    [FormOp.setNewAlias " x ", FormOp.addAlias 1 (Except.ok noDup)]
    { id := 1, name := "x" } (by decide)

/-- C10: `handleRemoveAlias aliasId` leaves every other form field
unchanged and removes from the alias list exactly the aliases whose id
equals `aliasId`. -/
theorem remove_alias_frame (s : FormState) (i : Int) :
    (handleRemoveAlias s i).formData.name = s.formData.name ∧
    (handleRemoveAlias s i).formData.description = s.formData.description ∧
    (handleRemoveAlias s i).newAlias = s.newAlias ∧
    (handleRemoveAlias s i).isSubmitting = s.isSubmitting ∧
    (handleRemoveAlias s i).nameError = s.nameError ∧
    (handleRemoveAlias s i).isCheckingDuplicate = s.isCheckingDuplicate ∧
    (handleRemoveAlias s i).aliasError = s.aliasError ∧
    (handleRemoveAlias s i).isCheckingAliasDuplicate =
      s.isCheckingAliasDuplicate ∧
    ∀ a : ArtistAlias,
      a ∈ (handleRemoveAlias s i).formData.aliases ↔
        a ∈ s.formData.aliases ∧ a.id ≠ i := by
  refine ⟨rfl, rfl, rfl, rfl, rfl, rfl, rfl, rfl, ?_⟩
  intro a
  simp [handleRemoveAlias, List.mem_filter]

/-- C3: the mount effect issues exactly one `fetchArtists` call; a
successful fetch stores the returned list and clears the error, a rejected
fetch sets the error message instead; both clear the loading flag; and the
table renders one row per artist in state, in order, showing its fields. -/
theorem mount_fetch_renders_rows :
    mountCalls = [ApiCall.fetchArtists] ∧
    mountCalls.length = 1 ∧
    (∀ (s : PageState) (data : List Artist),
      (loadArtists s (Except.ok data)).artists = data ∧
      (loadArtists s (Except.ok data)).error = none ∧
      (loadArtists s (Except.ok data)).isLoading = false) ∧
    (∀ s : PageState,
      (loadArtists s (Except.error ())).error =
        some "Failed to load artists" ∧
      (loadArtists s (Except.error ())).artists = s.artists ∧
      (loadArtists s (Except.error ())).isLoading = false) ∧
    (∀ l : List Artist,
      (renderRows l).length = l.length ∧
      ∀ i : Nat, (renderRows l).get? i =
        (l.get? i).map (fun a =>
          { id := a.id, name := a.name, description := a.description,
            aliasNames := a.aliases.map (fun al => al.name) })) := by
  refine ⟨rfl, rfl, ?_, ?_, ?_⟩
  · intro s data
    simp [loadArtists]
  · intro s
    simp [loadArtists]
  · intro l
    constructor
    · simp [renderRows]
    · intro i
      simp [renderRows, List.get?_eq_getElem?, List.getElem?_map]

/-- C4: the page's submit handler calls `updateArtist` with the editing
artist's id when editing and `createArtist` otherwise; only when that call
succeeds does it refetch the list (after the call) and close the form; on
failure it issues no further call and leaves the page state, including the
open form, untouched. -/
theorem page_submit_api_then_refetch_close :
    (∀ (s : PageState) (d : FormData) (a : Artist)
        (fr : Except Unit (List Artist)),
      s.editingArtist = some a →
        (pageHandleSubmit s d (Except.ok ()) fr).calls =
          [ApiCall.updateArtist a.id d, ApiCall.fetchArtists] ∧
        (pageHandleSubmit s d (Except.ok ()) fr).state.isFormOpen = false ∧
        (pageHandleSubmit s d (Except.ok ()) fr).state.editingArtist =
          none) ∧
    (∀ (s : PageState) (d : FormData) (fr : Except Unit (List Artist)),
      s.editingArtist = none →
        (pageHandleSubmit s d (Except.ok ()) fr).calls =
          [ApiCall.createArtist d, ApiCall.fetchArtists] ∧
        (pageHandleSubmit s d (Except.ok ()) fr).state.isFormOpen = false ∧
        (pageHandleSubmit s d (Except.ok ()) fr).state.editingArtist =
          none) ∧
    (∀ (s : PageState) (d : FormData) (fr : Except Unit (List Artist)),
      ApiCall.fetchArtists ∉ (pageHandleSubmit s d (Except.error ()) fr).calls ∧
      (pageHandleSubmit s d (Except.error ()) fr).state = s) := by
  refine ⟨?_, ?_, ?_⟩
  · intro s d a fr h
    simp [pageHandleSubmit, handleCloseForm, h]
  · intro s d fr h
    simp [pageHandleSubmit, handleCloseForm, h]
  · intro s d fr
    constructor
    · cases h : s.editingArtist with
      | none => simp [pageHandleSubmit, h]
      | some a => simp [pageHandleSubmit, h]
    · cases h : s.editingArtist with
      | none => simp [pageHandleSubmit, h]
      | some a => simp [pageHandleSubmit, h]

/-- A page state that is editing artist id 7 with the form open. -/
def editingPageState : PageState :=
  { artists := [], isLoading := false, error := none, isFormOpen := true,
    editingArtist := some { id := 7, name := "N", description := "D",
                            aliases := [] },
    selectedArtist := none }

/-- C4 witness: a successful update from a concrete editing state issues
update then refetch and closes the form; a failed create from the pristine
state issues no refetch and leaves the state untouched. -/
theorem page_submit_api_then_refetch_close_witness :
    ((pageHandleSubmit editingPageState { name := "N", description := "D", aliases := [] }
        (Except.ok ()) (Except.ok [])).calls =
      [ApiCall.updateArtist 7 { name := "N", description := "D", aliases := [] },
        ApiCall.fetchArtists] ∧
      (pageHandleSubmit editingPageState { name := "N", description := "D", aliases := [] }
        (Except.ok ()) (Except.ok [])).state.isFormOpen = false ∧
      (pageHandleSubmit editingPageState { name := "N", description := "D", aliases := [] }
        (Except.ok ()) (Except.ok [])).state.editingArtist = none) ∧
    (ApiCall.fetchArtists ∉
      (pageHandleSubmit initialPageState { name := "N", description := "D", aliases := [] }
        (Except.error ()) (Except.ok [])).calls ∧
      (pageHandleSubmit initialPageState { name := "N", description := "D", aliases := [] }
        (Except.error ()) (Except.ok [])).state = initialPageState) :=
  ⟨page_submit_api_then_refetch_close.1 editingPageState
      { name := "N", description := "D", aliases := [] }
      { id := 7, name := "N", description := "D", aliases := [] }
      (Except.ok []) (by decide),
    page_submit_api_then_refetch_close.2.2 initialPageState
      { name := "N", description := "D", aliases := [] } (Except.ok [])⟩

/-- C5: `handleDelete` issues `deleteArtist(id)` exactly when the user
confirms; a confirmed, successful delete is followed by a refetch; a
declined dialog issues no API call and leaves the state unchanged. -/
theorem delete_confirmation_gated :
    (∀ (s : PageState) (id : Int) (confirmed : Bool)
        (dr : Except Unit Unit) (fr : Except Unit (List Artist)),
      ApiCall.deleteArtist id ∈ (handleDelete s id confirmed dr fr).calls ↔
        confirmed = true) ∧
    (∀ (s : PageState) (id : Int) (fr : Except Unit (List Artist)),
      (handleDelete s id true (Except.ok ()) fr).calls =
        [ApiCall.deleteArtist id, ApiCall.fetchArtists] ∧
      (handleDelete s id true (Except.ok ()) fr).state =
        loadArtists s fr) ∧
    (∀ (s : PageState) (id : Int) (dr : Except Unit Unit)
        (fr : Except Unit (List Artist)),
      (handleDelete s id false dr fr).calls = [] ∧
      (handleDelete s id false dr fr).state = s) := by
  refine ⟨?_, ?_, ?_⟩
  · intro s id confirmed dr fr
    cases confirmed with
    | false => simp [handleDelete]
    | true =>
      rcases dr with e | u
      · simp [handleDelete]
      · simp [handleDelete]
  · intro s id fr
    simp [handleDelete]
  · intro s id dr fr
    simp [handleDelete]
